import Mathlib

/-!
Shallow embedding of the live-tracking WebSocket hub implemented in
`live-tracker/public/touch_server.js`.  Global mutable maps (`users`,
`locations`, `userConnections`, `rateLimits`) become explicit state
(`ServerState`); `Date.now()` becomes an explicit `now : ℤ` argument;
WebSocket sends become a list of `Delivery` values returned by each
handler.  JS `Map`s are modelled as insertion-ordered association lists,
matching the `set`/`get`/`has`/`delete`/`forEach` semantics used by the
source.  JS numbers reaching `parseFloat` are modelled by `JsNum`
(finite rational, NaN, or ±Infinity) with JS comparison semantics.
-/

namespace LiveTracker

/-! ## JS value model -/

/-- Result of `parseFloat` on a client-supplied `lat`/`lng` field:
a finite number, `NaN` (absent field or non-numeric string), or ±Infinity. -/
inductive JsNum where
  | nan : JsNum
  | inf (pos : Bool) : JsNum
  | fin (q : ℚ) : JsNum
deriving DecidableEq, Repr

/-- JS `isNaN`. -/
def JsNum.isNaN : JsNum → Bool
  | .nan => true
  | _ => false

/-- JS `<=` on numbers: any comparison with NaN is false; ±Infinity compare
as extended reals. -/
def jsLe : JsNum → JsNum → Bool
  | .nan, _ => false
  | _, .nan => false
  | .inf true, .inf true => true
  | .inf true, .inf false => false
  | .inf true, .fin _ => false
  | .inf false, _ => true
  | .fin _, .inf true => true
  | .fin _, .inf false => false
  | .fin a, .fin b => decide (a ≤ b)

/-- JS `>=` on numbers. -/
def jsGe (a b : JsNum) : Bool := jsLe b a

/-- The rational carried by a finite `JsNum`; only used by the handlers on
values already checked to be finite. -/
def JsNum.toQ : JsNum → ℚ
  | .fin q => q
  | _ => 0

/-- JS truthiness of an optional string field: `undefined` and `""` are falsy. -/
def truthyOpt : Option String → Bool
  | none => false
  | some s => !s.isEmpty

/-- JS `a || d` for an optional string `a` and string default `d`
(as in `data.name || 'Anonymous'`). -/
def jsOr (a : Option String) (d : String) : String :=
  if truthyOpt a then a.getD "" else d

/-- JS `a || b` for two optional strings (as in `data.userId || ws.userId`). -/
def jsOrOpt (a b : Option String) : Option String :=
  if truthyOpt a then a else b

/-! ## JS `Map` as an insertion-ordered association list -/

/-- JS `Map.prototype.get` (`none` = `undefined`). -/
def mapGet {κ α : Type} [DecidableEq κ] (m : List (κ × α)) (k : κ) : Option α :=
  (m.find? (fun p => p.1 = k)).map (·.2)

/-- JS `Map.prototype.has`. -/
def mapHas {κ α : Type} [DecidableEq κ] (m : List (κ × α)) (k : κ) : Bool :=
  m.any (fun p => p.1 = k)

/-- JS `Map.prototype.set`: updates an existing key in place, otherwise
appends, preserving iteration order. -/
def mapSet {κ α : Type} [DecidableEq κ] (m : List (κ × α)) (k : κ) (v : α) :
    List (κ × α) :=
  if mapHas m k then m.map (fun p => if p.1 = k then (k, v) else p)
  else m ++ [(k, v)]

/-- JS `Map.prototype.delete`. -/
def mapDelete {κ α : Type} [DecidableEq κ] (m : List (κ × α)) (k : κ) :
    List (κ × α) :=
  m.filter (fun p => ¬ p.1 = k)

/-! ## Configuration (`CONFIG` in the source) -/

def LOCATION_TIMEOUT : ℤ := 5 * 60 * 1000

def CLEANUP_INTERVAL : ℤ := 60 * 1000

def RATE_LIMIT_WINDOW : ℤ := 1000

def MAX_REQUESTS_PER_WINDOW : ℕ := 10

def MAX_USERS : ℕ := 100

/-! ## Data model -/

/-- A registered user (value of the `users` map). -/
structure User where
  userId : String
  name : String
  connectedAt : ℤ
  lastSeen : ℤ
deriving DecidableEq, Repr

/-- A stored location (value of the `locations` map).  The key and the
`userId` field come from `data.userId`, which may be `undefined`. -/
structure Location where
  userId : Option String
  lat : ℚ
  lng : ℚ
  name : String
  timestamp : ℤ
deriving DecidableEq, Repr

/-- A rate-limit map: identity to the timestamps recorded inside the window. -/
abbrev RateMap := List (String × List ℤ)

/-- The four global maps of the source. -/
structure ServerState where
  users : List (String × User) := []
  locations : List (Option String × Location) := []
  userConnections : List (String × ℕ) := []
  rateLimits : RateMap := []
deriving DecidableEq, Repr

/-- A per-connection WebSocket object: its identifier, the `ws.userId`
field set at registration, and whether the registration-timeout timer is
still armed (`connectionTimeout` not yet cleared). -/
structure Conn where
  connId : ℕ
  userId : Option String := none
  timerArmed : Bool := true
deriving DecidableEq, Repr

/-- A parsed inbound message (`data` in the source), with JS-optional fields. -/
structure MsgData where
  msgType : Option String := none
  userId : Option String := none
  name : Option String := none
  lat : JsNum := .nan
  lng : JsNum := .nan
  targetUserId : Option String := none
deriving DecidableEq, Repr

/-- A raw frame: either text that fails `JSON.parse` or a parsed object. -/
inductive RawMsg where
  | invalid : RawMsg
  | parsed (data : MsgData) : RawMsg
deriving DecidableEq, Repr

/-- An outbound message. -/
inductive OutMsg where
  | welcome (message : String)
  | error (message : String)
  | pong
  | registrationSuccess (userId : String)
  | userList (users : List (String × String × ℤ)) (timestamp : ℤ)
  | locationUpdate (userId : Option String) (lat lng : ℚ) (name : String)
      (timestamp : ℤ)
  | locationStop (userId : String) (timestamp : ℤ)
deriving DecidableEq, Repr

/-- An observable transport effect of a handler: a `ws.send` to the message's
own connection, a `broadcastToAll`, or a `ws.close(code, reason)`. -/
inductive Delivery where
  | toSender (msg : OutMsg)
  | toAll (msg : OutMsg)
  | closeConn (code : ℕ) (reason : String)
deriving DecidableEq, Repr

/-! ## Operations -/

/-- The source's `isRateLimited(userId)`: filter the identity's timestamps to
the trailing window; at or above the cap, reject leaving the map untouched;
otherwise record `now` (the filtered list plus `now`) and accept.  Returns
(limited?, updated rate-limit map). -/
def isRateLimited (rl : RateMap) (userId : String) (now : ℤ) : Bool × RateMap :=
  let userRequests := (mapGet rl userId).getD []
  let validRequests := userRequests.filter
    (fun timestamp => now - timestamp < RATE_LIMIT_WINDOW)
  if MAX_REQUESTS_PER_WINDOW ≤ validRequests.length then (true, rl)
  else (false, mapSet rl userId (validRequests ++ [now]))

/-- The source's `isValidLocation(lat, lng)`: both `parseFloat` results are
non-NaN and within [-90,90] × [-180,180], with JS comparison semantics. -/
def isValidLocation (lat lng : JsNum) : Bool :=
  !lat.isNaN && !lng.isNaN &&
    jsGe lat (.fin (-90)) && jsLe lat (.fin 90) &&
    jsGe lng (.fin (-180)) && jsLe lng (.fin 180)

/-- Payload of `broadcastUserList`: `{userId, name, connectedAt}` per user,
in map iteration order. -/
def userListOf (users : List (String × User)) : List (String × String × ℤ) :=
  users.map (fun p => (p.2.userId, p.2.name, p.2.connectedAt))

/-- The source's `sendExistingLocations(ws)`: push every stored location whose
age is strictly below `LOCATION_TIMEOUT` to the one connection. -/
def sendExistingLocations (st : ServerState) (now : ℤ) : List Delivery :=
  (st.locations.filter
      (fun p => now - p.2.timestamp < LOCATION_TIMEOUT)).map
    (fun p => .toSender (.locationUpdate p.2.userId p.2.lat p.2.lng
      p.2.name p.2.timestamp))

/-- The source's `handleUserRegistration(ws, data, connectionTimeout)`.
`clearTimeout` happens first, before the identity is validated. -/
def handleUserRegistration (st : ServerState) (ws : Conn) (data : MsgData)
    (now : ℤ) : ServerState × Conn × List Delivery :=
  let ws1 : Conn := { ws with timerArmed := false }
  let userName := jsOr data.name "Anonymous"
  if !truthyOpt data.userId then
    (st, ws1, [.toSender (.error "Invalid user ID")])
  else
    let userId := data.userId.getD ""
    if MAX_USERS ≤ st.users.length ∧ mapHas st.users userId = false then
      (st, ws1, [.toSender (.error "Server at capacity"),
                 .closeConn 1013 "Server at capacity"])
    else
      let u : User := ⟨userId, userName, now, now⟩
      let st1 := { st with users := mapSet st.users userId u }
      let ws2 := { ws1 with userId := some userId }
      let st2 := { st1 with
        userConnections := mapSet st1.userConnections userId ws.connId }
      (st2, ws2,
        [.toSender (.registrationSuccess userId),
         .toAll (.userList (userListOf st2.users) now)]
        ++ sendExistingLocations st2 now)

/-- The source's `handleLocationUpdate(ws, data)`: requires a bound identity,
validates coordinates, upserts the location under `data.userId`, refreshes the
matching user's `lastSeen`, then broadcasts the update to everyone. -/
def handleLocationUpdate (st : ServerState) (ws : Conn) (data : MsgData)
    (now : ℤ) : ServerState × List Delivery :=
  if !truthyOpt ws.userId then
    (st, [.toSender (.error "Not registered")])
  else if !isValidLocation data.lat data.lng then
    (st, [.toSender (.error "Invalid location data")])
  else
    let loc : Location :=
      ⟨data.userId, data.lat.toQ, data.lng.toQ, jsOr data.name "Anonymous", now⟩
    let st1 := { st with locations := mapSet st.locations data.userId loc }
    let st2 :=
      match data.userId with
      | some s =>
        match mapGet st1.users s with
        | some u => { st1 with users := mapSet st1.users s { u with lastSeen := now } }
        | none => st1
      | none => st1
    (st2, [.toAll (.locationUpdate data.userId data.lat.toQ data.lng.toQ
      (jsOr data.name "Anonymous") now)])

/-- The source's `handleStopSharing(ws, data)`: silently ignores unregistered
senders; the deleted identity is `data.userId || ws.userId`. -/
def handleStopSharing (st : ServerState) (ws : Conn) (data : MsgData)
    (now : ℤ) : ServerState × List Delivery :=
  if !truthyOpt ws.userId then (st, [])
  else
    let userId := jsOrOpt data.userId ws.userId
    if mapHas st.locations userId then
      ({ st with locations := mapDelete st.locations userId },
       [.toAll (.locationStop (userId.getD "") now)])
    else (st, [])

/-- The source's `handleTrackUser(ws, data)`: a falsy target gets an error; a
stored location strictly younger than `LOCATION_TIMEOUT` is echoed to the
requester only; otherwise nothing is sent.  The store is not mutated. -/
def handleTrackUser (st : ServerState) (data : MsgData) (now : ℤ) :
    List Delivery :=
  if !truthyOpt data.targetUserId then
    [.toSender (.error "Invalid target user ID")]
  else
    match mapGet st.locations data.targetUserId with
    | some location =>
        if now - location.timestamp < LOCATION_TIMEOUT then
          [.toSender (.locationUpdate location.userId location.lat location.lng
            location.name location.timestamp)]
        else []
    | none => []

/-- The source's `handleClientDisconnect(ws)`: if `ws.userId` is set, remove
the session and connection entries, remove the location (broadcasting
`location_stop` if one existed) and broadcast the updated user list.
The `ws.userId` field itself is never cleared. -/
def handleClientDisconnect (st : ServerState) (ws : Conn) (now : ℤ) :
    ServerState × List Delivery :=
  if truthyOpt ws.userId then
    let uid := ws.userId.getD ""
    let st1 := { st with users := mapDelete st.users uid,
                         userConnections := mapDelete st.userConnections uid }
    if mapHas st1.locations (some uid) then
      let st2 := { st1 with locations := mapDelete st1.locations (some uid) }
      (st2, [.toAll (.locationStop uid now),
             .toAll (.userList (userListOf st2.users) now)])
    else
      (st1, [.toAll (.userList (userListOf st1.users) now)])
  else (st, [])

/-- The source's `handleWebSocketMessage(ws, data, connectionTimeout)` switch. -/
def handleWebSocketMessage (st : ServerState) (ws : Conn) (data : MsgData)
    (now : ℤ) : ServerState × Conn × List Delivery :=
  let t := data.msgType.getD ""
  if t = "register" then handleUserRegistration st ws data now
  else if t = "location_update" then
    let r := handleLocationUpdate st ws data now
    (r.1, ws, r.2)
  else if t = "stop_sharing" then
    let r := handleStopSharing st ws data now
    (r.1, ws, r.2)
  else if t = "track_user" then (st, ws, handleTrackUser st data now)
  else if t = "ping" then (st, ws, [.toSender .pong])
  else (st, ws, [.toSender (.error ("Unknown message type: " ++ t))])

/-- The `ws.on('message')` callback: parse, require a truthy `type`, run the
rate limiter only when `ws.userId` is truthy (JS `&&` short-circuit), then
dispatch. -/
def processMessage (st : ServerState) (ws : Conn) (raw : RawMsg) (now : ℤ) :
    ServerState × Conn × List Delivery :=
  match raw with
  | .invalid => (st, ws, [.toSender (.error "Invalid JSON")])
  | .parsed data =>
    if !truthyOpt data.msgType then
      (st, ws, [.toSender (.error "Invalid message format")])
    else if truthyOpt ws.userId then
      let r := isRateLimited st.rateLimits (ws.userId.getD "") now
      let st1 := { st with rateLimits := r.2 }
      if r.1 then (st1, ws, [.toSender (.error "Rate limit exceeded")])
      else handleWebSocketMessage st1 ws data now
    else handleWebSocketMessage st ws data now

/-- The periodic cleanup callback (`setInterval` at the bottom of the source):
delete locations older than `LOCATION_TIMEOUT`; filter every rate window to
in-window timestamps, deleting entries whose filtered list is empty.  The
callback sends no messages, so its delivery list is empty. -/
def cleanupSweep (st : ServerState) (now : ℤ) : ServerState × List Delivery :=
  ({ st with
      locations := st.locations.filter
        (fun p => ¬ now - p.2.timestamp > LOCATION_TIMEOUT),
      rateLimits := (st.rateLimits.map
          (fun p => (p.1, p.2.filter
            (fun timestamp => now - timestamp < RATE_LIMIT_WINDOW)))).filter
        (fun p => ¬ p.2.isEmpty) },
   [])

/-- Iterated rate-limit checks for one identity at the given instants,
collecting each check's limited/accepted verdict. -/
def runChecks (rl : RateMap) (id : String) (ts : List ℤ) :
    List Bool × RateMap :=
  match ts with
  | [] => ([], rl)
  | t :: rest =>
      let r := isRateLimited rl id t
      let s := runChecks r.2 id rest
      (r.1 :: s.1, s.2)

/-- Dispatch guarded by a rate-limit check on identity `id`, mirroring the
rate-checked path of `processMessage`.  Stated from the spec sentence that
every inbound message passes the rate limiter before being dispatched by
type; used to compare that reading with the source's pipeline. -/
def rateGatedDispatch (st : ServerState) (ws : Conn) (data : MsgData)
    (now : ℤ) (id : String) : ServerState × Conn × List Delivery :=
  let r := isRateLimited st.rateLimits id now
  let st1 := { st with rateLimits := r.2 }
  if r.1 then (st1, ws, [.toSender (.error "Rate limit exceeded")])
  else handleWebSocketMessage st1 ws data now

/-- Formalisation of the claim that every inbound message on every connection,
registered or not, is subjected to the rate-limiter check before dispatch:
processing any well-typed message coincides with the rate-gated pipeline for
some identity. -/
def rateCheckEverywhere : Prop :=
  ∀ (st : ServerState) (ws : Conn) (data : MsgData) (now : ℤ),
    truthyOpt data.msgType = true →
    ∃ id, processMessage st ws (.parsed data) now =
      rateGatedDispatch st ws data now id

/-- The claimed timer invariant: a connection that has not successfully
registered (no truthy `ws.userId`) still has its registration-timeout
timer armed. -/
def unregisteredTimerInvariant (ws : Conn) : Prop :=
  truthyOpt ws.userId = false → ws.timerArmed = true

/-! ## Concrete fixtures used by witnesses and counterexamples -/

def c1Loc : Location := ⟨some "a", 1, 2, "Alice", 0⟩

def c1Store : ServerState := { locations := [(some "a", c1Loc)] }

def c4User : User := ⟨"a", "Alice", 0, 0⟩

def c4Store : ServerState :=
  { users := [("a", c4User)],
    locations := [(some "a", ⟨some "a", 1, 2, "Alice", 0⟩)],
    userConnections := [("a", 7)] }

def c4Conn : Conn := ⟨7, some "a", false⟩

def c7Users : List (String × User) :=
  (List.range 100).map (fun i =>
    (String.mk (List.replicate (i + 1) 'a'),
     ⟨String.mk (List.replicate (i + 1) 'a'), "n", 0, 0⟩))

def c8Loc : Location := ⟨some "b", 3, 4, "B", 200000⟩

def c8Store : ServerState :=
  { locations := [(some "a", ⟨some "a", 1, 2, "A", 0⟩), (some "b", c8Loc)],
    rateLimits := [("a", [0, 300500]), ("b", [0])] }

def c10Store : ServerState := { locations := [(some "a", ⟨some "a", 1, 2, "A", 0⟩)] }

/-! ## Lemmas about the `Map` model -/

theorem mapGet_map_update {κ α : Type} [DecidableEq κ] (m : List (κ × α)) (k : κ) (v : α) :
    mapGet (m.map (fun p => if p.1 = k then (k, v) else p)) k =
      if mapHas m k then some v else none := by
  induction m with
  | nil => simp [mapGet, mapHas]
  | cons a t ih =>
    by_cases h : a.1 = k
    · simp [mapGet, mapHas, List.find?, h]
    · have ha : (fun p : κ × α => if p.1 = k then (k, v) else p) a = a := by
        simp [h]
      simp only [List.map_cons, ha, mapGet, List.find?]
      rw [show (decide (a.1 = k)) = false from by simp [h]]
      simp only [mapGet] at ih
      rw [ih]
      simp only [mapHas, List.any_cons]
      exact if_congr (by simp [h]) rfl rfl

theorem mapGet_append_not_has {κ α : Type} [DecidableEq κ] (m : List (κ × α)) (k : κ) (v : α)
    (h : mapHas m k = false) :
    mapGet (m ++ [(k, v)]) k = some v := by
  induction m with
  | nil => simp [mapGet, List.find?]
  | cons a t ih =>
    simp only [mapHas, List.any_cons, Bool.or_eq_false_iff] at h
    simp only [List.cons_append, mapGet, List.find?] at ih ⊢
    rw [h.1]
    exact ih h.2

theorem mapGet_mapSet_self {κ α : Type} [DecidableEq κ] (m : List (κ × α)) (k : κ) (v : α) :
    mapGet (mapSet m k v) k = some v := by
  unfold mapSet
  by_cases h : mapHas m k
  · rw [if_pos h, mapGet_map_update, if_pos h]
  · rw [if_neg h, mapGet_append_not_has]
    exact Bool.eq_false_iff.mpr h

theorem length_mapSet_of_has {κ α : Type} [DecidableEq κ] (m : List (κ × α)) (k : κ) (v : α)
    (h : mapHas m k = true) :
    (mapSet m k v).length = m.length := by
  unfold mapSet
  rw [if_pos h, List.length_map]

theorem mapHas_mapDelete {κ α : Type} [DecidableEq κ] (m : List (κ × α)) (k : κ) :
    mapHas (mapDelete m k) k = false := by
  simp only [mapHas, mapDelete, List.any_eq_false]
  intro p hp
  rw [List.mem_filter] at hp
  simpa using hp.2

/-! ## Lemmas about the rate limiter -/

theorem isRateLimited_of_all_fresh (rl : RateMap) (id : String) (now : ℤ) (l : List ℤ)
    (h0 : (mapGet rl id).getD [] = l)
    (hfresh : ∀ x ∈ l, now - x < 1000) :
    isRateLimited rl id now =
      if 10 ≤ l.length then (true, rl) else (false, mapSet rl id (l ++ [now])) := by
  have hf : l.filter (fun timestamp => decide (now - timestamp < RATE_LIMIT_WINDOW)) = l := by
    rw [List.filter_eq_self]
    intro a ha
    simpa [RATE_LIMIT_WINDOW] using hfresh a ha
  simp only [isRateLimited, h0, hf, MAX_REQUESTS_PER_WINDOW]

theorem isRateLimited_of_all_stale (rl : RateMap) (id : String) (now : ℤ) (l : List ℤ)
    (h0 : (mapGet rl id).getD [] = l)
    (hstale : ∀ x ∈ l, 1000 ≤ now - x) :
    (isRateLimited rl id now).1 = false := by
  have hf : l.filter (fun timestamp => decide (now - timestamp < RATE_LIMIT_WINDOW)) = [] := by
    rw [List.filter_eq_nil_iff]
    intro a ha
    simpa [RATE_LIMIT_WINDOW] using not_lt.mpr (hstale a ha)
  simp only [isRateLimited, h0, hf, MAX_REQUESTS_PER_WINDOW]
  simp

theorem runChecks_spec (ts : List ℤ) (rl : RateMap) (l : List ℤ) (id : String)
    (h0 : (mapGet rl id).getD [] = l)
    (h1 : l.length ≤ 10)
    (h2 : ∀ x ∈ l, ∀ nw ∈ ts, nw - x < 1000)
    (h3 : ∀ a ∈ ts, ∀ b ∈ ts, b - a < 1000) :
    (runChecks rl id ts).1 =
        List.replicate (min (10 - l.length) ts.length) false ++
        List.replicate (ts.length - (10 - l.length)) true ∧
    (mapGet (runChecks rl id ts).2 id).getD [] = l ++ ts.take (10 - l.length) := by
  induction ts generalizing rl l with
  | nil => simp [runChecks, h0]
  | cons t rest ih =>
    have hstep := isRateLimited_of_all_fresh rl id t l h0
      (fun x hx => h2 x hx t (List.mem_cons_self t rest))
    have h2r : ∀ x ∈ l, ∀ nw ∈ rest, nw - x < 1000 :=
      fun x hx nw hnw => h2 x hx nw (List.mem_cons_of_mem t hnw)
    have h3r : ∀ a ∈ rest, ∀ b ∈ rest, b - a < 1000 :=
      fun a ha b hb => h3 a (List.mem_cons_of_mem t ha) b (List.mem_cons_of_mem t hb)
    by_cases hlen : 10 ≤ l.length
    · have hl10 : l.length = 10 := le_antisymm h1 hlen
      rw [if_pos hlen] at hstep
      obtain ⟨ihr, ihs⟩ := ih rl l h0 h1 h2r h3r
      simp only [runChecks, hstep]
      constructor
      · rw [ihr]
        simp [hl10, List.replicate_succ]
      · rw [ihs]
        simp [hl10]
    · push_neg at hlen
      rw [if_neg (by omega)] at hstep
      have h0' : (mapGet (mapSet rl id (l ++ [t])) id).getD [] = l ++ [t] := by
        rw [mapGet_mapSet_self]
        rfl
      have h2' : ∀ x ∈ l ++ [t], ∀ nw ∈ rest, nw - x < 1000 := by
        intro x hx nw hnw
        rcases List.mem_append.mp hx with hx | hx
        · exact h2r x hx nw hnw
        · have : x = t := by simpa using hx
          subst this
          exact h3 x (List.mem_cons_self x rest) nw (List.mem_cons_of_mem x hnw)
      obtain ⟨ihr, ihs⟩ := ih (mapSet rl id (l ++ [t])) (l ++ [t]) h0'
        (by simp; omega) h2' h3r
      have e1 : 10 - l.length = (10 - (l.length + 1)) + 1 := by omega
      simp only [runChecks, hstep]
      constructor
      · rw [ihr]
        simp only [List.length_cons, List.length_append, List.length_singleton] at *
        rw [e1, Nat.succ_min_succ, Nat.succ_sub_succ, List.replicate_succ]
        simp
      · rw [ihs]
        simp only [List.length_append, List.length_singleton]
        rw [e1, List.take_succ_cons]
        simp

/-! ## Lemmas about location validation -/

theorem isValidLocation_iff (lat lng : JsNum) :
    isValidLocation lat lng = true ↔
      ∃ a b : ℚ, lat = .fin a ∧ lng = .fin b ∧
        -90 ≤ a ∧ a ≤ 90 ∧ -180 ≤ b ∧ b ≤ 180 := by
  cases lat with
  | nan => simp [isValidLocation, JsNum.isNaN]
  | inf p => cases p <;> simp [isValidLocation, JsNum.isNaN, jsLe, jsGe]
  | fin a =>
    cases lng with
    | nan => simp [isValidLocation, JsNum.isNaN]
    | inf p => cases p <;> simp [isValidLocation, JsNum.isNaN, jsLe, jsGe]
    | fin b => simp [isValidLocation, JsNum.isNaN, jsLe, jsGe, and_assoc]

/-! ## Claim theorems -/

/-- C2: starting from an identity with no recorded timestamps, eleven
(`maxPerWindow + 1`) rate-limit checks all lying within one `windowMs`
of each other accept exactly the first ten and reject the eleventh; the
rejected attempt is not recorded (the stored list is exactly the first ten
instants); and any later check made once `windowMs` has elapsed since every
accepted timestamp is accepted. -/
theorem c2_rate_limiter_window (id : String) (rl : RateMap) (ts : List ℤ) (now2 : ℤ)
    (h0 : (mapGet rl id).getD [] = [])
    (h1 : ts.length = MAX_REQUESTS_PER_WINDOW + 1)
    (h2 : ∀ a ∈ ts, ∀ b ∈ ts, b - a < RATE_LIMIT_WINDOW)
    (h3 : ∀ x ∈ ts.take MAX_REQUESTS_PER_WINDOW, RATE_LIMIT_WINDOW ≤ now2 - x) :
    (runChecks rl id ts).1 =
        List.replicate MAX_REQUESTS_PER_WINDOW false ++ [true] ∧
    (mapGet (runChecks rl id ts).2 id).getD [] = ts.take MAX_REQUESTS_PER_WINDOW ∧
    (isRateLimited (runChecks rl id ts).2 id now2).1 = false := by
  have h2' : ∀ a ∈ ts, ∀ b ∈ ts, b - a < 1000 := by
    simpa [RATE_LIMIT_WINDOW] using h2
  obtain ⟨hr, hs⟩ := runChecks_spec ts rl [] id h0 (by simp) (by simp) h2'
  simp only [MAX_REQUESTS_PER_WINDOW] at h1 h3 ⊢
  rw [h1] at hr
  refine ⟨?_, ?_, ?_⟩
  · rw [hr]
    norm_num
  · simpa using hs
  · apply isRateLimited_of_all_stale _ _ _ (ts.take 10) (by simpa using hs)
    intro x hx
    simpa [RATE_LIMIT_WINDOW] using h3 x hx

/-- Witness for `c2_rate_limiter_window` at a concrete input: eleven checks
at instant 0 for identity "u", then one check at instant 1000. -/
theorem c2_rate_limiter_window_witness :
    (∀ a ∈ List.replicate 11 (0 : ℤ), ∀ b ∈ List.replicate 11 (0 : ℤ),
      b - a < RATE_LIMIT_WINDOW) ∧
    ((runChecks [] "u" (List.replicate 11 0)).1 =
        List.replicate 10 false ++ [true] ∧
     (mapGet (runChecks [] "u" (List.replicate 11 0)).2 "u").getD [] =
        (List.replicate 11 (0 : ℤ)).take 10 ∧
     (isRateLimited (runChecks [] "u" (List.replicate 11 0)).2 "u" 1000).1 = false) :=
  ⟨by decide,
   c2_rate_limiter_window "u" [] (List.replicate 11 0) 1000
     (by decide) (by decide) (by decide) (by decide)⟩


/-- C1 counterexample: a stored location whose age is exactly the TTL
(timestamp 0 read at 300000 = LOCATION_TIMEOUT) has age ≤ TTL, yet neither
the registration snapshot nor a track_user request delivers it — the source
filters with a strict `now - timestamp < LOCATION_TIMEOUT`, so the claim's
reading that age ≤ TTL is eligible for delivery fails at the boundary. -/
theorem c1_ttl_boundary_not_delivered :
    ((300000 : ℤ) - c1Loc.timestamp ≤ LOCATION_TIMEOUT) ∧
    sendExistingLocations c1Store 300000 = [] ∧
    handleTrackUser c1Store { targetUserId := some "a" } 300000 = [] := by
  decide

/-- C1 (amended): for every entry of the location store and both read
operations that deliver locations (the snapshot pushed on registration by
`sendExistingLocations` and the `track_user` reply), an entry whose age is
strictly below the TTL is delivered, and an entry whose age is at or above
the TTL is never delivered. -/
theorem c1_active_window (st : ServerState) (now : ℤ) (k : Option String) (loc : Location) :
    ((k, loc) ∈ st.locations →
      (Delivery.toSender (.locationUpdate loc.userId loc.lat loc.lng loc.name loc.timestamp)
          ∈ sendExistingLocations st now ↔ now - loc.timestamp < LOCATION_TIMEOUT)) ∧
    (mapGet st.locations k = some loc → truthyOpt k = true →
      handleTrackUser st { targetUserId := k } now =
        if now - loc.timestamp < LOCATION_TIMEOUT then
          [Delivery.toSender (.locationUpdate loc.userId loc.lat loc.lng loc.name loc.timestamp)]
        else []) := by
  constructor
  · intro hmem
    constructor
    · intro hin
      simp only [sendExistingLocations, List.mem_map, List.mem_filter] at hin
      obtain ⟨p, ⟨hp, hfresh⟩, heq⟩ := hin
      simp only [Delivery.toSender.injEq, OutMsg.locationUpdate.injEq] at heq
      rw [← heq.2.2.2.2]
      simpa using hfresh
    · intro hfresh
      simp only [sendExistingLocations, List.mem_map]
      refine ⟨(k, loc), List.mem_filter.mpr ⟨hmem, by simpa using hfresh⟩, rfl⟩
  · intro hget htr
    simp [handleTrackUser, htr, hget]

/-- Witness for `c1_active_window`: a fresh entry (age 10ms) is delivered
both in the snapshot and in the track_user reply. -/
theorem c1_active_window_witness :
    Delivery.toSender (.locationUpdate c1Loc.userId c1Loc.lat c1Loc.lng c1Loc.name c1Loc.timestamp)
        ∈ sendExistingLocations c1Store 10 ∧
    handleTrackUser c1Store { targetUserId := some "a" } 10 =
      [Delivery.toSender (.locationUpdate c1Loc.userId c1Loc.lat c1Loc.lng c1Loc.name c1Loc.timestamp)] := by
  constructor
  · exact ((c1_active_window c1Store 10 (some "a") c1Loc).1 (by decide)).mpr (by decide)
  · have h := (c1_active_window c1Store 10 (some "a") c1Loc).2 (by decide) (by decide)
    rw [h]
    decide

/-- C6: a `location_update` from a registered connection whose lat/lng are
not both finite numbers within [-90,90] × [-180,180] is answered with the
error message for invalid location data, the location store is left
unchanged (the returned state is exactly the input state) and no broadcast
occurs (the only delivery is the error to the sender). -/
theorem c6_invalid_location_rejected (st : ServerState) (ws : Conn) (data : MsgData) (now : ℤ)
    (hreg : truthyOpt ws.userId = true)
    (hbad : ¬ ∃ a b : ℚ, data.lat = .fin a ∧ data.lng = .fin b ∧
        -90 ≤ a ∧ a ≤ 90 ∧ -180 ≤ b ∧ b ≤ 180) :
    handleLocationUpdate st ws data now =
      (st, [.toSender (.error "Invalid location data")]) := by
  have hv : isValidLocation data.lat data.lng = false :=
    Bool.eq_false_iff.mpr (fun h => hbad ((isValidLocation_iff _ _).mp h))
  simp [handleLocationUpdate, hreg, hv]

/-- Witness for `c6_invalid_location_rejected` at lat = 95 (out of range),
lng = 20, from a registered connection. -/
theorem c6_invalid_location_rejected_witness :
    truthyOpt (some "a") = true ∧
    handleLocationUpdate {} ⟨0, some "a", false⟩
        { msgType := some "location_update", userId := some "a",
          lat := .fin 95, lng := .fin 20 } 0 =
      ({}, [.toSender (.error "Invalid location data")]) :=
  ⟨by decide,
   c6_invalid_location_rejected {} ⟨0, some "a", false⟩
     { msgType := some "location_update", userId := some "a",
       lat := .fin 95, lng := .fin 20 } 0 (by decide)
     (by
       rintro ⟨a, b, ha, hb, h1, h2, h3, h4⟩
       injection ha with ha'
       rw [← ha'] at h2
       norm_num at h2)⟩

/-- C10: for every `track_user` request — a missing (falsy, i.e. absent or
empty, matching the source's falsy test on `targetUserId`) target yields
exactly an error reply; a stored location for the target with age strictly
below the TTL yields exactly one `location_update` carrying that stored
location, sent to the requester only; any other case (no entry, or an entry
at/over the TTL age) yields no reply of any kind. -/
theorem c10_track_user (st : ServerState) (data : MsgData) (now : ℤ) :
    (truthyOpt data.targetUserId = false →
       handleTrackUser st data now = [.toSender (.error "Invalid target user ID")]) ∧
    (truthyOpt data.targetUserId = true →
       (∀ loc : Location, mapGet st.locations data.targetUserId = some loc →
         handleTrackUser st data now =
           if now - loc.timestamp < LOCATION_TIMEOUT then
             [.toSender (.locationUpdate loc.userId loc.lat loc.lng loc.name loc.timestamp)]
           else []) ∧
       (mapGet st.locations data.targetUserId = none →
         handleTrackUser st data now = [])) := by
  refine ⟨fun hf => ?_, fun ht => ⟨fun loc hget => ?_, fun hget => ?_⟩⟩
  · simp [handleTrackUser, hf]
  · simp [handleTrackUser, ht, hget]
  · simp [handleTrackUser, ht, hget]

/-- Witness for `c10_track_user`: a fresh stored location for identity "a"
is echoed to the requester as a single location_update. -/
theorem c10_track_user_witness :
    truthyOpt (some "a") = true ∧
    handleTrackUser c10Store { targetUserId := some "a" } 10 =
      [.toSender (.locationUpdate (some "a") 1 2 "A" 0)] := by
  refine ⟨by decide, ?_⟩
  have h := ((c10_track_user c10Store { targetUserId := some "a" } 10).2 (by decide)).1
    ⟨some "a", 1, 2, "A", 0⟩ (by decide)
  rw [h]
  decide

/-- C4 (code bug): processing the disconnect of connection `c4Conn` twice.
The first call removes session and location and broadcasts `location_stop`
plus `user_list`, but `ws.userId` is never cleared, so the second call
broadcasts `user_list` again — the claimed idempotence (no duplicate
`user_list` broadcast) fails; only the `location_stop` half holds. -/
theorem c4_second_disconnect_rebroadcasts :
    (handleClientDisconnect c4Store c4Conn 5).2 =
      [.toAll (.locationStop "a" 5), .toAll (.userList [] 5)] ∧
    (handleClientDisconnect (handleClientDisconnect c4Store c4Conn 5).1 c4Conn 6).2 =
      [.toAll (.userList [] 6)] := by
  decide

/-- C9 (code bug): `handleUserRegistration` calls `clearTimeout` before
validating the identity, so a register with a missing identity is rejected
as an invalid user ID yet leaves the connection unregistered with its
registration-timeout timer cancelled: the fresh connection satisfies the
claimed invariant, the connection after the rejected register violates it. -/
theorem c9_rejected_registration_cancels_timer :
    handleUserRegistration {} ⟨0, none, true⟩ { msgType := some "register" } 0 =
      ({}, ⟨0, none, false⟩, [.toSender (.error "Invalid user ID")]) ∧
    unregisteredTimerInvariant ⟨0, none, true⟩ ∧
    ¬ unregisteredTimerInvariant ⟨0, none, false⟩ := by
  refine ⟨by decide, fun _ => rfl, fun h => ?_⟩
  exact absurd (h rfl) (by decide)

/-- C5 counterexample: the claim quantifies over every string `u`, but for
the empty string the source's fallback `data.userId || ws.userId` picks the
sender's identity, so a `stop_sharing` whose payload userId is the empty
string does not delete the location stored under the empty string — the
state is returned unchanged and that entry is still present. -/
theorem c5_empty_payload_identity_falls_back :
    handleStopSharing { locations := [(some "", ⟨some "", 1, 2, "E", 0⟩)] }
        ⟨1, some "a", false⟩ { msgType := some "stop_sharing", userId := some "" } 5 =
      ({ locations := [(some "", ⟨some "", 1, 2, "E", 0⟩)] }, []) ∧
    mapHas ({ locations := [(some "", ⟨some "", 1, 2, "E", 0⟩)] } : ServerState).locations
      (some "") = true := by
  decide

/-- C5 (amended): for a registered connection and a payload userId `u`, a
valid `location_update` upserts the location entry for `u` (any string `u`),
and a `stop_sharing` deletes the entry of `u` provided `u` is non-empty (an
empty or missing payload userId falls back to the sender's own identity).
In both handlers the payload identity is acted on without being compared to
the sender's bound identity, so a registered connection can overwrite or
delete any other identity's location. -/
theorem c5_payload_identity_unchecked (st : ServerState) (ws : Conn) (data : MsgData)
    (u : String) (now : ℤ)
    (hreg : truthyOpt ws.userId = true)
    (hu : data.userId = some u) :
    (isValidLocation data.lat data.lng = true →
      mapGet (handleLocationUpdate st ws data now).1.locations (some u) =
        some ⟨some u, data.lat.toQ, data.lng.toQ, jsOr data.name "Anonymous", now⟩) ∧
    (u ≠ "" →
      mapHas (handleStopSharing st ws data now).1.locations (some u) = false) := by
  constructor
  · intro hv
    simp only [handleLocationUpdate, hreg, hv, hu, Bool.not_true, Bool.false_eq_true,
      if_false, if_true]
    cases mapGet st.users u <;> exact mapGet_mapSet_self _ _ _
  · intro hne
    have hie : u.isEmpty = false := by
      rw [Bool.eq_false_iff]
      intro h
      exact hne ((String.isEmpty_iff u).mp h)
    have htu : truthyOpt (some u) = true := by simp [truthyOpt, hie]
    simp only [handleStopSharing, hreg, Bool.not_true, Bool.false_eq_true, if_false,
      jsOrOpt, hu, htu, if_true]
    by_cases hh : mapHas st.locations (some u)
    · simp [hh, mapHas_mapDelete]
    · simp [hh]

/-- Witness for `c5_payload_identity_unchecked`: a connection registered as
identity "a" creates the location entry of "b" via location_update and
deletes it via stop_sharing. -/
theorem c5_payload_identity_unchecked_witness :
    truthyOpt (some "a") = true ∧
    mapGet (handleLocationUpdate {} ⟨0, some "a", false⟩
        { msgType := some "location_update", userId := some "b",
          lat := .fin 10, lng := .fin 20 } 0).1.locations (some "b") =
      some ⟨some "b", 10, 20, "Anonymous", 0⟩ ∧
    mapHas (handleStopSharing
        { locations := [(some "b", ⟨some "b", 10, 20, "Anonymous", 0⟩)] }
        ⟨0, some "a", false⟩ { msgType := some "stop_sharing", userId := some "b" }
        0).1.locations (some "b") = false :=
  ⟨by decide,
   (c5_payload_identity_unchecked {} ⟨0, some "a", false⟩
      { msgType := some "location_update", userId := some "b",
        lat := .fin 10, lng := .fin 20 } "b" 0 (by decide) rfl).1 (by decide),
   (c5_payload_identity_unchecked
      { locations := [(some "b", ⟨some "b", 10, 20, "Anonymous", 0⟩)] }
      ⟨0, some "a", false⟩ { msgType := some "stop_sharing", userId := some "b" }
      "b" 0 (by decide) rfl).2 (by decide)⟩

/-- C7: a register with a valid (truthy) identity, when the session count is
at least `MAX_USERS` and the identity is new, is rejected with the capacity
error and the connection is closed with code 1013, creating no session (the
state is returned unchanged); a register whose identity is already present
succeeds even at capacity: the session is overwritten in place (user count
unchanged), the identity is bound to the connection and the first reply is
`registration_success`. -/
theorem c7_capacity_and_overwrite (st : ServerState) (ws : Conn) (data : MsgData)
    (now : ℤ) (uid : String)
    (h1 : data.userId = some uid) (h2 : uid ≠ "") :
    ((MAX_USERS ≤ st.users.length ∧ mapHas st.users uid = false) →
       handleUserRegistration st ws data now =
         (st, { ws with timerArmed := false },
          [.toSender (.error "Server at capacity"),
           .closeConn 1013 "Server at capacity"])) ∧
    (mapHas st.users uid = true →
       mapGet (handleUserRegistration st ws data now).1.users uid =
         some ⟨uid, jsOr data.name "Anonymous", now, now⟩ ∧
       (handleUserRegistration st ws data now).2.1.userId = some uid ∧
       (handleUserRegistration st ws data now).1.users.length = st.users.length ∧
       (handleUserRegistration st ws data now).2.2.head? =
         some (.toSender (.registrationSuccess uid))) := by
  have hie : uid.isEmpty = false := by
    rw [Bool.eq_false_iff]
    intro h
    exact h2 ((String.isEmpty_iff uid).mp h)
  constructor
  · intro hcap
    simp [handleUserRegistration, h1, truthyOpt, hie, hcap.1, hcap.2]
  · intro hhas
    simp [handleUserRegistration, h1, truthyOpt, hie, hhas]
    refine ⟨mapGet_mapSet_self _ _ _, length_mapSet_of_has _ _ _ hhas⟩

/-- C7 witness: 100 distinct registered identities; a new identity "b" is
rejected with close code 1013 and the state is unchanged. -/
theorem c7_capacity_and_overwrite_witness :
    (MAX_USERS ≤ c7Users.length ∧ mapHas c7Users "b" = false) ∧
    handleUserRegistration { users := c7Users } ⟨3, none, true⟩
        { msgType := some "register", userId := some "b" } 0 =
      ({ users := c7Users }, ⟨3, none, false⟩,
       [.toSender (.error "Server at capacity"),
        .closeConn 1013 "Server at capacity"]) :=
  ⟨⟨by decide, by decide⟩,
   (c7_capacity_and_overwrite { users := c7Users } ⟨3, none, true⟩
      { msgType := some "register", userId := some "b" } 0 "b" rfl
      (by decide)).1 ⟨by decide, by decide⟩⟩

/-- C8: after a janitor sweep at time `now`, no remaining location has age
exceeding the TTL, every remaining rate-window entry contains only
timestamps within the trailing window and is non-empty (empty ones were
deleted), and the sweep emits no broadcast (its delivery list is empty). -/
theorem c8_janitor_sweep (st : ServerState) (now : ℤ) :
    (cleanupSweep st now).2 = [] ∧
    (∀ p ∈ (cleanupSweep st now).1.locations,
       ¬ LOCATION_TIMEOUT < now - p.2.timestamp) ∧
    (∀ p ∈ (cleanupSweep st now).1.rateLimits,
       (∀ t ∈ p.2, now - t < RATE_LIMIT_WINDOW) ∧ p.2 ≠ []) := by
  refine ⟨rfl, ?_, ?_⟩
  · intro p hp
    simp only [cleanupSweep, List.mem_filter] at hp
    exact of_decide_eq_true hp.2
  · intro p hp
    simp only [cleanupSweep, List.mem_filter, List.mem_map] at hp
    obtain ⟨⟨q, hq, hpq⟩, hne⟩ := hp
    have hne' : ¬ p.2.isEmpty = true := of_decide_eq_true hne
    constructor
    · intro t htm
      rw [← hpq] at htm
      have := (List.mem_filter.mp htm).2
      exact of_decide_eq_true this
    · intro hnil
      exact hne' (by rw [hnil]; rfl)

/-- Witness for `c8_janitor_sweep`: after sweeping `c8Store` at 301000 the
fresh entry for identity "b" survives and is within the TTL. -/
theorem c8_janitor_sweep_witness :
    (some "b", c8Loc) ∈ (cleanupSweep c8Store 301000).1.locations ∧
    ¬ LOCATION_TIMEOUT < (301000 : ℤ) - c8Loc.timestamp :=
  ⟨by decide, (c8_janitor_sweep c8Store 301000).2.1 (some "b", c8Loc) (by decide)⟩

/-- C3 counterexample: it is not the case that every inbound message on
every connection is subjected to the rate-limiter check before dispatch.
On an unregistered connection a ping is dispatched with the rate-limit map
untouched, which matches the rate-gated pipeline for no identity — the
source guards the check behind a truthy `ws.userId`, skipping it entirely
for unregistered connections. -/
theorem c3_unregistered_bypasses_limiter : ¬ rateCheckEverywhere := by
  intro h
  obtain ⟨id, heq⟩ := h {} ⟨0, none, true⟩ { msgType := some "ping" } 0 (by decide)
  have hL : processMessage {} ⟨0, none, true⟩ (.parsed { msgType := some "ping" }) 0 =
      ({}, ⟨0, none, true⟩, [.toSender .pong]) := by decide
  rw [hL] at heq
  have hR : isRateLimited ([] : RateMap) id 0 = (false, [(id, [(0 : ℤ)])]) := by
    simp [isRateLimited, mapGet, mapSet, mapHas, List.find?,
      RATE_LIMIT_WINDOW, MAX_REQUESTS_PER_WINDOW]
  rw [rateGatedDispatch, hR] at heq
  have h2 := congrArg (fun r => r.1.rateLimits) heq
  simp [handleWebSocketMessage] at h2

theorem handleUserRegistration_preserves_rateLimits (st : ServerState) (ws : Conn)
    (data : MsgData) (now : ℤ) :
    (handleUserRegistration st ws data now).1.rateLimits = st.rateLimits := by
  unfold handleUserRegistration
  dsimp only
  split_ifs <;> rfl

theorem handleLocationUpdate_preserves_rateLimits (st : ServerState) (ws : Conn)
    (data : MsgData) (now : ℤ) :
    (handleLocationUpdate st ws data now).1.rateLimits = st.rateLimits := by
  unfold handleLocationUpdate
  dsimp only
  split_ifs <;> try rfl
  cases data.userId with
  | none => rfl
  | some s =>
    dsimp only
    cases mapGet st.users s <;> rfl

theorem handleStopSharing_preserves_rateLimits (st : ServerState) (ws : Conn)
    (data : MsgData) (now : ℤ) :
    (handleStopSharing st ws data now).1.rateLimits = st.rateLimits := by
  unfold handleStopSharing
  dsimp only
  split_ifs <;> rfl

theorem handleWebSocketMessage_preserves_rateLimits (st : ServerState) (ws : Conn)
    (data : MsgData) (now : ℤ) :
    (handleWebSocketMessage st ws data now).1.rateLimits = st.rateLimits := by
  unfold handleWebSocketMessage
  dsimp only
  split_ifs
  · exact handleUserRegistration_preserves_rateLimits st ws data now
  · exact handleLocationUpdate_preserves_rateLimits st ws data now
  · exact handleStopSharing_preserves_rateLimits st ws data now
  · rfl
  · rfl
  · rfl

/-- C3 (amended): an inbound message with a truthy type is subjected to the
rate-limiter check exactly when the connection has a bound (truthy)
identity: for a registered connection processing coincides with the
rate-gated pipeline keyed by its identity, while for an unregistered
connection the message is dispatched directly and the rate-limit map is not
consulted or updated. -/
theorem c3_rate_gate_only_when_registered (st : ServerState) (ws : Conn)
    (data : MsgData) (now : ℤ) (ht : truthyOpt data.msgType = true) :
    (truthyOpt ws.userId = true →
       processMessage st ws (.parsed data) now =
         rateGatedDispatch st ws data now (ws.userId.getD "")) ∧
    (truthyOpt ws.userId = false →
       processMessage st ws (.parsed data) now =
         handleWebSocketMessage st ws data now ∧
       (processMessage st ws (.parsed data) now).1.rateLimits = st.rateLimits) := by
  constructor
  · intro hreg
    simp [processMessage, rateGatedDispatch, ht, hreg]
  · intro hunreg
    have he : processMessage st ws (.parsed data) now =
        handleWebSocketMessage st ws data now := by
      simp [processMessage, ht, hunreg]
    exact ⟨he, he ▸ handleWebSocketMessage_preserves_rateLimits st ws data now⟩

/-- Witness for `c3_rate_gate_only_when_registered`: a ping on a fresh
unregistered connection is dispatched directly with the rate-limit map
unchanged. -/
theorem c3_rate_gate_only_when_registered_witness :
    truthyOpt (some "ping") = true ∧
    (processMessage {} ⟨0, none, true⟩ (.parsed { msgType := some "ping" }) 0 =
       handleWebSocketMessage {} ⟨0, none, true⟩ { msgType := some "ping" } 0 ∧
     (processMessage {} ⟨0, none, true⟩
        (.parsed { msgType := some "ping" }) 0).1.rateLimits =
       ({} : ServerState).rateLimits) :=
  ⟨by decide,
   (c3_rate_gate_only_when_registered {} ⟨0, none, true⟩
      { msgType := some "ping" } 0 (by decide)).2 (by decide)⟩

end LiveTracker
